import Mathlib

/-!
Verification development for the secure-tunnel core of the
decentralized-identity repository.

The embedding covers:
* `src/api/secure-tunnel/lattice-crypto.js` — the Kyber KEM simulation and the
  Dilithium signature simulation;
* `src/api/secure-tunnel/libp2p-node.js` — the key-exchange handshake
  (`_performKeyExchange`), the AES-256-GCM message codec
  (`_encryptMessage` / `_decryptMessage`) and the stream loop
  (`_handleStream`);
* `src/api/secure-tunnel/tunnel-service.js` — the protocol dispatcher
  (`_handleMessage`) and its four handlers, together with the session store.

Modelling conventions.  Node's `crypto` library is external to the repository,
so its primitives are embedded symbolically (Dolev–Yao style): hashes,
ciphertexts, authentication tags and signatures are free constructors, so two
values are equal exactly when they were produced by the same primitive on the
same inputs.  This is the standard perfect-cryptography model; it is charitable
to the code (for instance, the deterministic key-derivation the code comments
describe is modelled even where Node would actually ignore the seed options and
generate random keys).  Randomness (fresh secrets, nonces, session ids,
timestamps) is passed in as explicit arguments.  Everything else — control
flow, field wiring, session bookkeeping, error handling — follows the source
line by line.
-/

namespace SecureTunnel

/-- Byte sequences (Node `Buffer` values) as lists of naturals. -/
abbrev Bytes := List Nat

/-- SHA-256 digests, modelled symbolically: the digest of an input is a free
constructor applied to the input, so two digests are equal exactly when the
hashed inputs are equal (collisions are not modelled, matching the intended
use of a collision-resistant hash). -/
inductive Digest where
  | sha256 (input : Bytes)
deriving DecidableEq

/-- The bytes of a string, as `Buffer.from(s)` produces them (modelled as the
code points of the characters). -/
def strToBytes (s : String) : Bytes :=
  s.toList.map Char.toNat

/-! ### Kyber (lattice-crypto.js lines 18-108)

The demonstration Kyber in the source simulates a KEM with ECDH plus AES-CBC:
`encapsulate` draws a fresh 32-byte secret and encrypts it under the
recipient's public key, `decapsulate` recovers it with the matching private
key and fails (the AES decryption throws) under any other key.  Key pairs are
modelled by a numeric identifier pairing the two halves. -/

/-- A Kyber key pair as `generateKeyPair` returns it (libp2p-node always uses
matching halves of one generated pair). -/
structure KyberKeyPair where
  publicKey : Nat
  privateKey : Nat
deriving DecidableEq

/-- Embeds `generateKeyPair()`: the two halves of a fresh pair match. -/
def Kyber.generateKeyPair (seed : Nat) : KyberKeyPair :=
  ⟨seed, seed⟩

/-- The public key corresponding to a private key (symbolic ECDH pairing). -/
def publicKeyOfPrivate (privateKey : Nat) : Nat :=
  privateKey

/-- The encapsulated blob `encapsulate` builds: IV, ephemeral public key and
the AES-encrypted fresh secret, modelled symbolically as the pair of the
recipient public key it was encrypted to and the secret it carries. -/
structure EncapsulatedKey where
  recipientPublicKey : Nat
  secret : Bytes
deriving DecidableEq

/-- Embeds `Kyber.encapsulate(publicKey)` (lines 42-77): draws a fresh 32-byte shared
secret (`freshSecret`, the `crypto.randomBytes(32)` of line 47) and returns it
together with its encryption under the recipient public key. -/
def Kyber.encapsulate (publicKey : Nat) (freshSecret : Bytes) :
    Bytes × EncapsulatedKey :=
  (freshSecret, ⟨publicKey, freshSecret⟩)

/-- Embeds `Kyber.decapsulate(encapsulatedKey, privateKey)` (lines 85-107): recovers
the carried secret when the blob was encapsulated to this private key's public
half; with any other key the AES-CBC decryption fails (throws), modelled as
`none` (fail closed, no partial secret). -/
def Kyber.decapsulate (ek : EncapsulatedKey) (privateKey : Nat) : Option Bytes :=
  if ek.recipientPublicKey = publicKeyOfPrivate privateKey then
    some ek.secret
  else
    none

/-! ### The key-exchange handshake (libp2p-node.js `_performKeyExchange`, lines 338-372) -/

/-- One side of `_performKeyExchange`: after the two round trips, `localFresh`
is the fresh secret this side drew in `encapsulate` (line 352, `sharedKey`)
and `peerBlob` is the encapsulated key received from the peer (line 358).
The side decapsulates the peer blob (line 361) and combines the two shares as
`sha256(localShare ++ peerShare)` — the `Buffer.concat([sharedKey,
peerSharedKey])` of lines 364-366, local share first. -/
def performKeyExchange (localFresh : Bytes) (privateKey : Nat)
    (peerBlob : EncapsulatedKey) : Option Digest :=
  match Kyber.decapsulate peerBlob privateKey with
  | none => none
  | some peerShare => some (Digest.sha256 (localFresh ++ peerShare))

/-- The full two-round-trip handshake: the active side holds key pair `a` and
draws fresh share `freshA`, the passive side holds `b` and draws `freshB`.
Each side encapsulates its share to the peer's public key and decapsulates the
blob it receives; the result is (active side's SharedSecret, passive side's
SharedSecret). -/
def handshake (a b : KyberKeyPair) (freshA freshB : Bytes) :
    Option Digest × Option Digest :=
  let ekA := (Kyber.encapsulate b.publicKey freshA).2
  let ekB := (Kyber.encapsulate a.publicKey freshB).2
  (performKeyExchange freshA a.privateKey ekB,
   performKeyExchange freshB b.privateKey ekA)

/-! ### Dilithium (lattice-crypto.js lines 114-210)

The demonstration Dilithium signs with Ed25519.  `sign` with a string wallet
secret derives the signing key from `sha256(secret)` (lines 144-151, per the
comment "Derive an Ed25519 key from the wallet key"); with a Buffer it imports
it as PKCS8 DER.  `verify` with a string wallet address takes `sha256(address)`
as the raw public-key bytes (lines 181-188); with a Buffer it imports it as
SPKI DER.  The symbolic model keeps these derivations apart: the public
counterpart of a seed-derived private key is `pubOfSeed h`, which is never the
raw byte string `h` itself (an Ed25519 public key is not its own seed). -/

/-- Symbolic DER encoding of an Ed25519 private key (PKCS8, 48-byte SEQUENCE). -/
def pkcs8Der (keyId : Nat) : Bytes :=
  [48, 46, keyId]

/-- Symbolic DER encoding of an Ed25519 public key (SPKI, 44-byte SEQUENCE). -/
def spkiDer (keyId : Nat) : Bytes :=
  [48, 42, keyId]

/-- Models `crypto.createPrivateKey` on DER bytes: succeeds only on a well-formed
PKCS8 encoding, otherwise throws. -/
def decodePkcs8 : Bytes → Option Nat
  | [48, 46, k] => some k
  | _ => none

/-- Models `crypto.createPublicKey` on DER bytes: succeeds only on a well-formed
SPKI encoding, otherwise throws. -/
def decodeSpki : Bytes → Option Nat
  | [48, 42, k] => some k
  | _ => none

/-- The identity of an Ed25519 signing key as `Dilithium.sign` obtains it:
either generated from the SHA-256 of a string wallet secret, or imported from
PKCS8 DER bytes. -/
inductive SignerId where
  | seeded (seedHash : Digest)
  | imported (keyId : Nat)
deriving DecidableEq

/-- The identity of an Ed25519 verification key as `Dilithium.verify` obtains
it: raw key bytes taken from the SHA-256 of a string wallet address, or a key
imported from SPKI DER bytes. -/
inductive VerifierId where
  | raw (keyBytes : Digest)
  | pubOfSeed (seedHash : Digest)
  | importedPub (keyId : Nat)
deriving DecidableEq

/-- The public counterpart of a signing key: for a seed-generated pair it is
the Ed25519 public half of that seed (not the seed bytes themselves); for an
imported PKCS8 key it is the matching SPKI public key. -/
def SignerId.publicCounterpart : SignerId → VerifierId
  | .seeded h => .pubOfSeed h
  | .imported k => .importedPub k

/-- An Ed25519 signature, symbolically: it binds the signed message and the
signing key. -/
structure DSignature where
  message : String
  signer : SignerId
deriving DecidableEq

/-- What travels on the wire in the `signature` field: the hex encoding of a
real signature buffer, or any other string (Node's `Buffer.from(s, 'hex')`
decodes such a string leniently to bytes that are not a valid signature). -/
inductive WireSignature where
  | hexOf (sig : DSignature)
  | junk (s : String)
deriving DecidableEq

/-- The `privateKey`/`publicKey` parameter of `sign`/`verify`: a string
(wallet secret or wallet address) or a DER `Buffer`. -/
inductive KeyInput where
  | str (s : String)
  | buf (b : Bytes)
deriving DecidableEq

/-- Embeds `Dilithium.sign(message, privateKey)` (lines 138-165).  With a string key
the signing key is generated from `sha256(privateKey)`; with a Buffer the key
is imported from PKCS8 DER, and a malformed DER makes `createPrivateKey`
throw (`sign` has no try/catch, so the error propagates — modelled as
`Except.error`). -/
def Dilithium.sign (message : String) (privateKey : KeyInput) :
    Except String DSignature :=
  match privateKey with
  | .str s => .ok ⟨message, .seeded (Digest.sha256 (strToBytes s))⟩
  | .buf b =>
    match decodePkcs8 b with
    | some k => .ok ⟨message, .imported k⟩
    | none => .error "createPrivateKey failed"

/-- The body of `Dilithium.verify` before its try/catch (lines 178-204): build
the verification key (string address → raw `sha256(address)` bytes, Buffer →
SPKI import which throws on malformed DER), then check the signature.
`crypto.verify` returns `true` exactly when the signature binds this message
to the signing key whose public counterpart is the verification key; a junk
signature string verifies as `false`. -/
def Dilithium.verifyCore (message : String) (signature : WireSignature)
    (publicKey : KeyInput) : Except String Bool :=
  match publicKey with
  | .str s =>
    match signature with
    | .junk _ => .ok false
    | .hexOf sig =>
      .ok (decide (sig.message = message) &&
        decide (sig.signer.publicCounterpart =
          VerifierId.raw (Digest.sha256 (strToBytes s))))
  | .buf b =>
    match decodeSpki b with
    | none => .error "createPublicKey failed"
    | some k =>
      match signature with
      | .junk _ => .ok false
      | .hexOf sig =>
        .ok (decide (sig.message = message) &&
          decide (sig.signer.publicCounterpart = VerifierId.importedPub k))

/-- Embeds `Dilithium.verify(message, signature, publicKey)` (lines 174-209): the
whole body sits in a try/catch that logs and returns `false` on any error, so
verification is total and never throws. -/
def Dilithium.verify (message : String) (signature : WireSignature)
    (publicKey : KeyInput) : Bool :=
  match Dilithium.verifyCore message signature publicKey with
  | .ok b => b
  | .error _ => false

/-- Embeds `SecureTunnelNode.verifySignature` (libp2p-node.js lines 195-197): the
tunnel always passes the wallet address as a string public key. -/
def nodeVerifySignature (challenge : String) (signature : WireSignature)
    (walletAddress : String) : Bool :=
  Dilithium.verify challenge signature (KeyInput.str walletAddress)

/-- Embeds `SecureTunnelNode.signChallenge` (libp2p-node.js lines 184-186): the
wallet always signs with its string wallet key; the resulting buffer travels
hex-encoded. -/
def signChallenge (challenge : String) (walletKey : String) :
    Except String WireSignature :=
  (Dilithium.sign challenge (KeyInput.str walletKey)).map WireSignature.hexOf

/-! ### The AES-256-GCM message codec (libp2p-node.js `_encryptMessage` lines
381-403, `_decryptMessage` lines 412-429)

The envelope on the wire is `(iv, encrypted, authTag)`, each hex-encoded (hex
is a bijection on byte strings and is elided).  AES-256-GCM itself is external
to the repository and is modelled symbolically: a ciphertext is a free
constructor binding key, nonce and plaintext, and the tag is a free
constructor binding key, nonce and ciphertext — so the tag validates exactly
when key, nonce and ciphertext are all the ones it was computed over, and
decryption yields the plaintext exactly when the ciphertext was produced
under the same key and nonce (otherwise the GCM final() throws: none).  The
payload stays the message value itself (the `JSON.stringify` of line 389 and
the `JSON.parse` of line 428 are an injective encoding pair and are absorbed
into the symbolic plaintext); the codec is generic in the payload type, which
covers every JSON-representable payload. -/

/-- A symbolic AES-256-GCM ciphertext over payloads of type `α`. -/
inductive CipherText (α : Type) where
  | aesGcmEnc (key : Digest) (iv : Nat) (plaintext : α)
deriving DecidableEq

/-- A symbolic AES-256-GCM authentication tag over payloads of type `α`. -/
inductive AuthTag (α : Type) where
  | aesGcmTag (key : Digest) (iv : Nat) (ciphertext : CipherText α)
deriving DecidableEq

/-- The wire envelope `{iv, encrypted, authTag}` built by `_encryptMessage`. -/
structure EncryptedMessage (α : Type) where
  iv : Nat
  encrypted : CipherText α
  authTag : AuthTag α
deriving DecidableEq

/-- Embeds `_encryptMessage(message, key)` (lines 381-403): draw a fresh 12-byte IV
(passed in as `iv`), encrypt the serialized message under `(key, iv)`, compute
the auth tag, and return the three-field envelope. -/
def encryptMessage {α : Type} (message : α) (key : Digest) (iv : Nat) :
    EncryptedMessage α :=
  let encrypted := CipherText.aesGcmEnc key iv message
  ⟨iv, encrypted, AuthTag.aesGcmTag key iv encrypted⟩

/-- Embeds `_decryptMessage(encryptedMessage, key)` (lines 412-429): set the auth tag
and decrypt; GCM releases the plaintext only if the tag validates against
`(key, iv, ciphertext)` and the ciphertext was produced under that same key
and IV — any mismatch makes `decipher.final()` (or the subsequent
`JSON.parse`) throw, modelled as `none`.  All-or-nothing: no partial
plaintext. -/
def decryptMessage {α : Type} [DecidableEq α] (em : EncryptedMessage α)
    (key : Digest) : Option α :=
  if em.authTag = AuthTag.aesGcmTag key em.iv em.encrypted then
    match em.encrypted with
    | CipherText.aesGcmEnc k i p =>
      if k = key ∧ i = em.iv then some p else none
  else
    none

/-! ### The tunnel service (tunnel-service.js)

State, protocol messages and the dispatcher.  The middleware's collaborators
(`didManager`, `ssoService`) are injected objects; their calls are recorded in
an explicit trace so that "no collaborator call is made" is a statement about
the returned trace.  Randomness (`crypto.randomBytes(16)` for the session id,
`Date.now()`) is passed in as arguments. -/

/-- Node role (`options.type`). -/
inductive NodeType where
  | wallet
  | middleware
deriving DecidableEq

/-- A middleware session record as `_handleAuth` stores it (lines 333-338). -/
structure Session where
  walletAddress : String
  sessionId : String
  established : Bool
  createdAt : Nat
deriving DecidableEq

/-- Lookup in a JS `Map` modelled as an association list (first binding wins,
matching the unique-key discipline of `Map`). -/
def mapGet {α : Type} (m : List (String × α)) (k : String) : Option α :=
  (m.find? (fun p => p.1 = k)).map Prod.snd

/-- Models `Map.set`: bind `k` to `v`, replacing any previous binding for `k` whole
(no merging of old and new values). -/
def mapSet {α : Type} (m : List (String × α)) (k : String) (v : α) :
    List (String × α) :=
  (k, v) :: m.filter (fun p => decide (p.1 ≠ k))

/-- The service state the handlers touch: the node type and the `sessions`
map. -/
structure ServiceState where
  type : NodeType
  sessions : List (String × Session)
deriving DecidableEq

/-- The `auth` message (`{type, walletAddress, challenge, signature}`). -/
structure AuthMessage where
  walletAddress : String
  challenge : String
  signature : WireSignature
deriving DecidableEq

/-- The `vault_decrypt` message (`{type, sessionId, vaultCid}`). -/
structure VaultDecryptMessage where
  sessionId : String
  vaultCid : String
deriving DecidableEq

/-- The `sso_login` message (`{type, sessionId, ...params}`). -/
structure SsoLoginMessage where
  sessionId : String
deriving DecidableEq

/-- The `app_token` message (`{type, sessionId, appId, ssoToken}`). -/
structure AppTokenMessage where
  sessionId : String
  appId : String
  ssoToken : String
deriving DecidableEq

/-- A decrypted protocol message, routed on its `type` tag by
`_handleMessage`; `unknown` stands for every other tag. -/
inductive ProtocolMessage where
  | auth (m : AuthMessage)
  | vaultDecrypt (m : VaultDecryptMessage)
  | ssoLogin (m : SsoLoginMessage)
  | appToken (m : AppTokenMessage)
  | unknown (typeTag : String)
deriving DecidableEq

/-- The response object a handler returns: `success` plus whichever of the
optional fields the branch fills (`error` on every failure path). -/
structure Response where
  success : Bool
  error : Option String
  sessionId : Option String
  vaultData : Option String
  merkleRoots : Option (List String)
  token : Option String
  expiresIn : Option Nat
  tokenType : Option String
deriving DecidableEq

/-- The `{success: false, error}` object every catch block returns. -/
def errResponse (e : String) : Response :=
  ⟨false, some e, none, none, none, none, none, none⟩

/-- One call to an external collaborator (DID manager, storage via the DID
manager, SSO service). -/
inductive CollabCall where
  | getIdentity (walletAddress : String)
  | fetchFromIPFS (cid : String)
  | ssoLogin (walletAddress : String) (sessionId : String)
  | getAppToken (ssoToken : String) (appId : String)
deriving DecidableEq

/-- An identity record as `didManager.getIdentity` returns it. -/
structure Identity where
  isActive : Bool
  merkleRoots : List String
deriving DecidableEq

/-- Result type of `ssoService.login`. -/
structure SsoLoginResult where
  token : String
  expiresIn : Nat
deriving DecidableEq

/-- Result type of `ssoService.getAppToken`. -/
structure AppTokenResult where
  token : String
  tokenType : String
deriving DecidableEq

/-- The injected collaborators; each call may throw (`Except.error`), which
the handler's catch turns into an error response. -/
structure Collaborators where
  getIdentity : String → Except String (Option Identity)
  fetchFromIPFS : String → Except String String
  ssoLogin : String → String → Except String SsoLoginResult
  getAppToken : String → String → Except String AppTokenResult

/-- What one handler invocation produces: the response, the (possibly
updated) state, and the trace of collaborator calls it made. -/
abbrev HandlerResult := Response × ServiceState × List CollabCall

/-- Embeds `_handleAuth(peerId, message)` (tunnel-service.js lines 314-351).  The
signature check is delegated to `this.node.verifySignature`, injected here as
`verify`; `freshSessionId` is the `crypto.randomBytes(16).toString('hex')` of
line 330 and `now` the `Date.now()` of line 337.  On success a brand-new
session record replaces whatever `sessions` held for this peer; on any thrown
error the catch returns `{success: false, error}` and the state is untouched.
No record of the consumed challenge is kept anywhere. -/
def handleAuth (verify : String → WireSignature → String → Bool)
    (st : ServiceState) (peerId : String) (msg : AuthMessage)
    (freshSessionId : String) (now : Nat) : HandlerResult :=
  if st.type ≠ NodeType.middleware then
    (errResponse "Only middleware nodes can handle authentication", st, [])
  else if verify msg.challenge msg.signature msg.walletAddress = false then
    (errResponse "Invalid signature", st, [])
  else
    (⟨true, none, some freshSessionId, none, none, none, none, none⟩,
     ⟨st.type, mapSet st.sessions peerId ⟨msg.walletAddress, freshSessionId, true, now⟩⟩,
     [])

/-- Embeds `_handleVaultDecrypt(peerId, message)` (tunnel-service.js lines 360-396).
The session looked up under the requesting peer must exist and carry the
supplied `sessionId` before any collaborator is touched; then
`didManager.getIdentity` and `didManager.fetchFromIPFS` run in order, each
failure caught into an error response. -/
def handleVaultDecrypt (st : ServiceState) (env : Collaborators)
    (peerId : String) (msg : VaultDecryptMessage) : HandlerResult :=
  if st.type ≠ NodeType.middleware then
    (errResponse "Only middleware nodes can handle vault decryption", st, [])
  else
    match mapGet st.sessions peerId with
    | none => (errResponse "Invalid session", st, [])
    | some session =>
      if session.sessionId ≠ msg.sessionId then
        (errResponse "Invalid session", st, [])
      else
        match env.getIdentity session.walletAddress with
        | .error e =>
          (errResponse e, st, [CollabCall.getIdentity session.walletAddress])
        | .ok none =>
          (errResponse "Identity not found or inactive", st,
           [CollabCall.getIdentity session.walletAddress])
        | .ok (some identity) =>
          if identity.isActive = false then
            (errResponse "Identity not found or inactive", st,
             [CollabCall.getIdentity session.walletAddress])
          else
            match env.fetchFromIPFS msg.vaultCid with
            | .error e =>
              (errResponse e, st,
               [CollabCall.getIdentity session.walletAddress,
                CollabCall.fetchFromIPFS msg.vaultCid])
            | .ok vaultData =>
              (⟨true, none, none, some vaultData, some identity.merkleRoots,
                 none, none, none⟩, st,
               [CollabCall.getIdentity session.walletAddress,
                CollabCall.fetchFromIPFS msg.vaultCid])

/-- Embeds `_handleSSOLogin(peerId, message)` (tunnel-service.js lines 405-440): the
same session check, then `ssoService.login` with the session's wallet address
and the tunnel session as authentication. -/
def handleSSOLogin (st : ServiceState) (env : Collaborators)
    (peerId : String) (msg : SsoLoginMessage) : HandlerResult :=
  if st.type ≠ NodeType.middleware then
    (errResponse "Only middleware nodes can handle SSO login", st, [])
  else
    match mapGet st.sessions peerId with
    | none => (errResponse "Invalid session", st, [])
    | some session =>
      if session.sessionId ≠ msg.sessionId then
        (errResponse "Invalid session", st, [])
      else
        match env.ssoLogin session.walletAddress msg.sessionId with
        | .error e =>
          (errResponse e, st,
           [CollabCall.ssoLogin session.walletAddress msg.sessionId])
        | .ok r =>
          (⟨true, none, none, none, none, some r.token, some r.expiresIn, none⟩,
           st, [CollabCall.ssoLogin session.walletAddress msg.sessionId])

/-- Embeds `_handleAppToken(peerId, message)` (tunnel-service.js lines 449-481): the
same session check, then `ssoService.getAppToken`. -/
def handleAppToken (st : ServiceState) (env : Collaborators)
    (peerId : String) (msg : AppTokenMessage) : HandlerResult :=
  if st.type ≠ NodeType.middleware then
    (errResponse "Only middleware nodes can handle app token requests", st, [])
  else
    match mapGet st.sessions peerId with
    | none => (errResponse "Invalid session", st, [])
    | some session =>
      if session.sessionId ≠ msg.sessionId then
        (errResponse "Invalid session", st, [])
      else
        match env.getAppToken msg.ssoToken msg.appId with
        | .error e =>
          (errResponse e, st, [CollabCall.getAppToken msg.ssoToken msg.appId])
        | .ok r =>
          (⟨true, none, none, none, none, some r.token, none, some r.tokenType⟩,
           st, [CollabCall.getAppToken msg.ssoToken msg.appId])

/-- Embeds `_handleMessage(peerId, message)` (tunnel-service.js lines 275-305): route
on the `type` tag; an unknown tag gets `{success: false, error: "Unknown
message type: ..."}`; every handler already catches its own errors, and the
outer catch would wrap anything else in `{success: false, error}` — the
dispatcher is total and returns exactly one response per message. -/
def handleMessage (verify : String → WireSignature → String → Bool)
    (st : ServiceState) (env : Collaborators) (peerId : String)
    (msg : ProtocolMessage) (freshSessionId : String) (now : Nat) :
    HandlerResult :=
  match msg with
  | .auth m => handleAuth verify st peerId m freshSessionId now
  | .vaultDecrypt m => handleVaultDecrypt st env peerId m
  | .ssoLogin m => handleSSOLogin st env peerId m
  | .appToken m => handleAppToken st env peerId m
  | .unknown t => (errResponse ("Unknown message type: " ++ t), st, [])

/-- The tunnel's composed signature check: `_handleAuth` line 323 calls
`this.node.verifySignature(challenge, signature, walletAddress)`. -/
def tunnelVerify (challenge : String) (signature : WireSignature)
    (walletAddress : String) : Bool :=
  nodeVerifySignature challenge signature walletAddress

/-- Embeds `_handleStream(peerId, stream)` (libp2p-node.js lines 295-330), one
iteration of the read loop on an already-established session with symmetric
key `sharedKey`: decrypt the incoming envelope, run the message handler, and
write back exactly one sealed response (`responseIv` being the fresh IV the
response encryption draws).  If decryption throws, the catch at line 327 logs
the error and writes nothing: no response envelope is produced. -/
def handleStream (verify : String → WireSignature → String → Bool)
    (st : ServiceState) (env : Collaborators) (peerId : String)
    (sharedKey : Digest) (incoming : EncryptedMessage ProtocolMessage)
    (freshSessionId : String) (now : Nat) (responseIv : Nat) :
    Option (EncryptedMessage Response × ServiceState) :=
  match decryptMessage incoming sharedKey with
  | none => none
  | some msg =>
    let r := handleMessage verify st env peerId msg freshSessionId now
    some (encryptMessage r.1 sharedKey responseIv, r.2.1)

/-- Embeds `_handleProtocol` (libp2p-node.js lines 264-287), the connections-map
update on an inbound stream: a key exchange runs and a fresh entry is stored
only when the peer has no entry yet; an existing entry is kept untouched. -/
def handleProtocolConnections (connections : List (String × Digest))
    (peerId : String) (newSharedKey : Digest) : List (String × Digest) :=
  if (mapGet connections peerId).isSome then
    connections
  else
    mapSet connections peerId newSharedKey

/-- Embeds `connectToPeer` (libp2p-node.js lines 110-134), the connections-map update
on an outbound dial: the freshly handshaken entry is stored unconditionally,
replacing any previous entry for this peer whole. -/
def connectToPeerConnections (connections : List (String × Digest))
    (peerId : String) (newSharedKey : Digest) : List (String × Digest) :=
  mapSet connections peerId newSharedKey

/-- Keys of a peer-indexed map are pairwise distinct: at most one entry per
peer identifier. -/
def distinctKeys {α : Type} (m : List (String × α)) : Prop :=
  m.Pairwise (fun a b => a.1 ≠ b.1)

/-- The `sessionId` a request carries: the session-bound requests carry one,
`auth` and unknown messages do not. -/
def requestSessionId : ProtocolMessage → Option String
  | .auth _ => none
  | .vaultDecrypt m => some m.sessionId
  | .ssoLogin m => some m.sessionId
  | .appToken m => some m.sessionId
  | .unknown _ => none

/-! ### Concrete fixtures used to evaluate the embedding at specific inputs -/

/-- Collaborators that always answer: an active identity with no merkle
roots, fixed vault bytes and fixed tokens. -/
def testCollaborators : Collaborators :=
  ⟨fun _ => .ok (some ⟨true, []⟩),
   fun _ => .ok "vault-bytes",
   fun _ _ => .ok ⟨"sso-token", 3600⟩,
   fun _ _ => .ok ⟨"app-token", "Bearer"⟩⟩

/-- A signature-verification collaborator that accepts; used to exercise the
dispatcher on the code path where `node.verifySignature` returns true. -/
def verifyAccept : String → WireSignature → String → Bool :=
  fun _ _ _ => true

/-- A fresh middleware state: no sessions yet. -/
def middlewareState : ServiceState :=
  ⟨NodeType.middleware, []⟩

/-- An `auth` message carrying the challenge value "abc". -/
def replayAuthMessage : AuthMessage :=
  ⟨"P1", "abc", WireSignature.junk "sig"⟩

/-- First `auth` handled: the challenge "abc" is consumed (accepted). -/
def replayFirst : HandlerResult :=
  handleAuth verifyAccept middlewareState "peerH" replayAuthMessage "session-1" 0

/-- The same `auth` message handled again on the resulting state: the
challenge "abc" is replayed. -/
def replaySecond : HandlerResult :=
  handleAuth verifyAccept replayFirst.2.1 "peerH" replayAuthMessage "session-2" 1

/-- A middleware state holding one authenticated session for peer "peerA"
with session id "sid-A". -/
def oneSessionState : ServiceState :=
  ⟨NodeType.middleware, [("peerA", ⟨"walletA", "sid-A", true, 0⟩)]⟩

/-- The 32-byte fresh share drawn by the active handshake side in the
concrete run: all zeros. -/
def freshShareA : Bytes :=
  List.replicate 32 0

/-- The 32-byte fresh share drawn by the passive handshake side in the
concrete run: a one followed by zeros. -/
def freshShareB : Bytes :=
  1 :: List.replicate 31 0

/-! ## Theorems -/

/-- C1: the two-round-trip handshake does NOT yield the identical
SharedSecret on both sides.  Evaluating the embedded `_performKeyExchange` at
concrete valid key pairs and fresh shares: the active side combines the
shares as `sha256(shareA ++ shareB)` while the passive side computes
`sha256(shareB ++ shareA)` (each side concatenates its own share first,
libp2p-node.js lines 364-366), so whenever the two fresh 32-byte shares
differ — here all-zeros versus one-then-zeros — the two sides end the
handshake holding different symmetric keys. -/
theorem handshake_shared_secrets_disagree :
    handshake (Kyber.generateKeyPair 1) (Kyber.generateKeyPair 2)
        freshShareA freshShareB =
      (some (Digest.sha256 (freshShareA ++ freshShareB)),
       some (Digest.sha256 (freshShareB ++ freshShareA))) ∧
    (handshake (Kyber.generateKeyPair 1) (Kyber.generateKeyPair 2)
        freshShareA freshShareB).1 ≠
      (handshake (Kyber.generateKeyPair 1) (Kyber.generateKeyPair 2)
        freshShareA freshShareB).2 := by
  decide

/-- C3: the seal/open round-trip law.  For every payload and every shared
secret, opening the envelope `_encryptMessage` sealed (under whatever fresh
nonce it drew) returns exactly the sealed payload. -/
theorem seal_open_roundtrip {α : Type} [DecidableEq α] (message : α)
    (key : Digest) (iv : Nat) :
    decryptMessage (encryptMessage message key iv) key = some message := by
  simp [encryptMessage, decryptMessage]

/-- C3 witness: the round-trip law evaluated at a concrete payload, key and
nonce. -/
theorem seal_open_roundtrip_witness :
    decryptMessage (encryptMessage (37 : Nat) (Digest.sha256 [1, 2]) 9)
      (Digest.sha256 [1, 2]) = some 37 :=
  seal_open_roundtrip 37 (Digest.sha256 [1, 2]) 9

/-- C5: the happy-path `Authenticate` scenario is REJECTED by the code.  The
holder signs the challenge "abc" with its wallet secret, producing a
signature under the key generated from `sha256(secret)` (lattice-crypto.js
lines 144-151); the relay verifies against the key bytes `sha256("P1")`
taken from the principal string (lines 181-188).  The verification key is
never the public counterpart of the signing key, `crypto.verify` returns
false, and `_handleAuth` answers `{success: false, error: "Invalid
signature"}` instead of a session token. -/
theorem auth_happy_path_rejected :
    Dilithium.sign "abc" (KeyInput.str "holder-wallet-secret") =
      Except.ok ⟨"abc", SignerId.seeded (Digest.sha256 (strToBytes "holder-wallet-secret"))⟩ ∧
    handleAuth tunnelVerify middlewareState "peerH"
        ⟨"P1", "abc",
         WireSignature.hexOf
           ⟨"abc", SignerId.seeded (Digest.sha256 (strToBytes "holder-wallet-secret"))⟩⟩
        "fresh-session" 0 =
      (errResponse "Invalid signature", middlewareState, []) := by
  constructor
  · rfl
  · decide

/-- C6 counterexample: replaying a previously-consumed challenge value is NOT
rejected.  With a verification collaborator that accepts the signature, the
first `Authenticate` carrying challenge "abc" succeeds (consuming the
challenge), and handling the byte-identical `Authenticate` again on the
resulting state succeeds a second time: the dispatcher keeps no record of
consumed challenges. -/
theorem replayed_challenge_accepted_again :
    replayFirst.1.success = true ∧ replaySecond.1.success = true := by
  decide

/-- C6 amended: the dispatcher performs no replay tracking.  Whenever
signature verification accepts an `Authenticate` message on a middleware
node, handling the very same message again — the same challenge value,
already consumed by the first, successful `Authenticate` — is accepted again
rather than rejected. -/
theorem replay_not_tracked (verify : String → WireSignature → String → Bool)
    (st : ServiceState) (peerId : String) (m : AuthMessage)
    (fresh1 : String) (now1 : Nat) (fresh2 : String) (now2 : Nat)
    (hmw : st.type = NodeType.middleware)
    (hver : verify m.challenge m.signature m.walletAddress = true) :
    (handleAuth verify st peerId m fresh1 now1).1.success = true ∧
    (handleAuth verify (handleAuth verify st peerId m fresh1 now1).2.1
        peerId m fresh2 now2).1.success = true := by
  unfold handleAuth
  simp [hmw, hver]

/-- C6 witness: the amended statement evaluated at the concrete replay run. -/
theorem replay_not_tracked_witness :
    (handleAuth verifyAccept middlewareState "peerH" replayAuthMessage
        "session-1" 0).1.success = true ∧
    (handleAuth verifyAccept
        (handleAuth verifyAccept middlewareState "peerH" replayAuthMessage
          "session-1" 0).2.1
        "peerH" replayAuthMessage "session-2" 1).1.success = true :=
  replay_not_tracked verifyAccept middlewareState "peerH" replayAuthMessage
    "session-1" 0 "session-2" 1 rfl rfl

/-- C9: `Dilithium.verify` never throws and answers `false` on malformed
input: every internal error (`verifyCore` throwing) is caught into `false`,
a public key whose DER bytes do not decode makes it return `false`, and a
signature string that is not the hex of a real signature verifies `false`
under every key. -/
theorem verify_never_throws_false_on_malformed (message : String)
    (signature : WireSignature) (publicKey : KeyInput) (b : Bytes) (j : String) :
    (∀ e, Dilithium.verifyCore message signature publicKey = Except.error e →
      Dilithium.verify message signature publicKey = false) ∧
    (decodeSpki b = none →
      Dilithium.verify message signature (KeyInput.buf b) = false) ∧
    Dilithium.verify message (WireSignature.junk j) publicKey = false := by
  refine ⟨fun e h => ?_, fun h => ?_, ?_⟩
  · unfold Dilithium.verify
    rw [h]
  · simp [Dilithium.verify, Dilithium.verifyCore, h]
  · cases publicKey with
    | str s => simp [Dilithium.verify, Dilithium.verifyCore]
    | buf b2 =>
      cases hdec : decodeSpki b2 <;>
        simp [Dilithium.verify, Dilithium.verifyCore, hdec]

/-- C9 witness: verification evaluated at a concrete malformed DER public key
and a concrete junk signature string. -/
theorem verify_never_throws_false_on_malformed_witness :
    (decodeSpki [1, 2, 3] = none →
      Dilithium.verify "m" (WireSignature.junk "zz") (KeyInput.buf [1, 2, 3]) = false) ∧
    Dilithium.verify "m" (WireSignature.junk "zz") (KeyInput.buf [1, 2, 3]) = false :=
  ⟨(verify_never_throws_false_on_malformed "m" (WireSignature.junk "zz")
      (KeyInput.buf [1, 2, 3]) [1, 2, 3] "zz").2.1,
   (verify_never_throws_false_on_malformed "m" (WireSignature.junk "zz")
      (KeyInput.buf [1, 2, 3]) [1, 2, 3] "zz").2.2⟩

/-- C4: any mutation of a sealed envelope — a changed nonce, a changed
ciphertext, or a changed tag, the other two fields untouched — makes
`_decryptMessage` fail: the GCM tag no longer validates, the whole envelope
is rejected and no decoded value (in particular no partial plaintext) is ever
returned. -/
theorem mutated_envelope_rejected {α : Type} [DecidableEq α] (message : α)
    (key : Digest) (iv : Nat) (em : EncryptedMessage α)
    (hmut :
      (em.iv ≠ iv ∧ em.encrypted = (encryptMessage message key iv).encrypted ∧
        em.authTag = (encryptMessage message key iv).authTag) ∨
      (em.iv = iv ∧ em.encrypted ≠ (encryptMessage message key iv).encrypted ∧
        em.authTag = (encryptMessage message key iv).authTag) ∨
      (em.iv = iv ∧ em.encrypted = (encryptMessage message key iv).encrypted ∧
        em.authTag ≠ (encryptMessage message key iv).authTag)) :
    decryptMessage em key = none := by
  obtain ⟨i, c, t⟩ := em
  simp only [encryptMessage] at hmut
  rcases hmut with ⟨h1, h2, h3⟩ | ⟨h1, h2, h3⟩ | ⟨h1, h2, h3⟩
  · subst h2; subst h3
    simp [decryptMessage, Ne.symm h1]
  · subst h1; subst h3
    simp [decryptMessage, Ne.symm h2]
  · subst h1; subst h2
    simp [decryptMessage, h3]

/-- C4 witness: an envelope sealed under a concrete key whose nonce field was
mutated is rejected. -/
theorem mutated_envelope_rejected_witness :
    decryptMessage
      (⟨1, CipherText.aesGcmEnc (Digest.sha256 []) 0 (5 : Nat),
        AuthTag.aesGcmTag (Digest.sha256 []) 0
          (CipherText.aesGcmEnc (Digest.sha256 []) 0 5)⟩ : EncryptedMessage Nat)
      (Digest.sha256 []) = none :=
  mutated_envelope_rejected 5 (Digest.sha256 []) 0 _
    (Or.inl ⟨by decide, by decide, by decide⟩)

/-- C2: a `vault_decrypt`, `sso_login` or `app_token` request arriving on a
connection whose peer has no established session (no successful `auth`
completed) or whose supplied `sessionId` does not match that peer's session
is answered with an error response (`success: false` with an error reason),
the state is untouched, and no collaborator call whatsoever is made. -/
theorem unauthenticated_request_rejected (st : ServiceState)
    (env : Collaborators) (peerId : String) (vm : VaultDecryptMessage)
    (sm : SsoLoginMessage) (am : AppTokenMessage)
    (hv : ∀ s, mapGet st.sessions peerId = some s → s.sessionId ≠ vm.sessionId)
    (hs : ∀ s, mapGet st.sessions peerId = some s → s.sessionId ≠ sm.sessionId)
    (ha : ∀ s, mapGet st.sessions peerId = some s → s.sessionId ≠ am.sessionId) :
    (∃ e, handleVaultDecrypt st env peerId vm = (errResponse e, st, [])) ∧
    (∃ e, handleSSOLogin st env peerId sm = (errResponse e, st, [])) ∧
    (∃ e, handleAppToken st env peerId am = (errResponse e, st, [])) := by
  refine ⟨?_, ?_, ?_⟩
  · unfold handleVaultDecrypt
    split
    · exact ⟨_, rfl⟩
    · cases hm : mapGet st.sessions peerId with
      | none => exact ⟨"Invalid session", by simp [hm]⟩
      | some s => exact ⟨"Invalid session", by simp [hm, hv s hm]⟩
  · unfold handleSSOLogin
    split
    · exact ⟨_, rfl⟩
    · cases hm : mapGet st.sessions peerId with
      | none => exact ⟨"Invalid session", by simp [hm]⟩
      | some s => exact ⟨"Invalid session", by simp [hm, hs s hm]⟩
  · unfold handleAppToken
    split
    · exact ⟨_, rfl⟩
    · cases hm : mapGet st.sessions peerId with
      | none => exact ⟨"Invalid session", by simp [hm]⟩
      | some s => exact ⟨"Invalid session", by simp [hm, ha s hm]⟩

/-- C2 witness: the three requests rejected on a middleware with no session
for the requesting peer, with the collaborator trace empty. -/
theorem unauthenticated_request_rejected_witness :
    (∃ e, handleVaultDecrypt middlewareState testCollaborators "peerB"
        ⟨"sid", "cid"⟩ = (errResponse e, middlewareState, [])) ∧
    (∃ e, handleSSOLogin middlewareState testCollaborators "peerB"
        ⟨"sid"⟩ = (errResponse e, middlewareState, [])) ∧
    (∃ e, handleAppToken middlewareState testCollaborators "peerB"
        ⟨"sid", "app", "tok"⟩ = (errResponse e, middlewareState, [])) :=
  unauthenticated_request_rejected middlewareState testCollaborators "peerB"
    ⟨"sid", "cid"⟩ ⟨"sid"⟩ ⟨"sid", "app", "tok"⟩
    (fun s h => by simp [mapGet, middlewareState] at h)
    (fun s h => by simp [mapGet, middlewareState] at h)
    (fun s h => by simp [mapGet, middlewareState] at h)

/-- Every dispatched message gets a response that is a success or carries a
typed error reason: the dispatcher and all four handlers are total and wrap
every failure (wrong role, bad signature, missing session, collaborator
error, unknown tag) into `{success: false, error}`. -/
theorem response_success_or_error
    (verify : String → WireSignature → String → Bool) (st : ServiceState)
    (env : Collaborators) (peerId : String) (msg : ProtocolMessage)
    (fresh : String) (now : Nat) :
    (handleMessage verify st env peerId msg fresh now).1.success = true ∨
    (handleMessage verify st env peerId msg fresh now).1.error.isSome = true := by
  cases msg <;>
    simp only [handleMessage, handleAuth, handleVaultDecrypt, handleSSOLogin,
      handleAppToken] <;>
    (repeat' split) <;> simp [errResponse]

/-- C7: for every incoming envelope that decrypts to a protocol message of
any type — the four known tags as well as unknown ones — one iteration of
the stream loop produces exactly one sealed response envelope, whose payload
is the dispatcher's response and is either a success or a typed error
variant; failures travel as `{success: false, error}` values, never as raw
exceptions. -/
theorem every_decrypted_message_answered
    (verify : String → WireSignature → String → Bool) (st : ServiceState)
    (env : Collaborators) (peerId : String) (sharedKey : Digest)
    (incoming : EncryptedMessage ProtocolMessage) (msg : ProtocolMessage)
    (fresh : String) (now : Nat) (respIv : Nat)
    (hdec : decryptMessage incoming sharedKey = some msg) :
    handleStream verify st env peerId sharedKey incoming fresh now respIv =
      some (encryptMessage (handleMessage verify st env peerId msg fresh now).1
              sharedKey respIv,
            (handleMessage verify st env peerId msg fresh now).2.1) ∧
    ((handleMessage verify st env peerId msg fresh now).1.success = true ∨
      (handleMessage verify st env peerId msg fresh now).1.error.isSome = true) := by
  refine ⟨?_, response_success_or_error verify st env peerId msg fresh now⟩
  unfold handleStream
  rw [hdec]

/-- C7 witness: a sealed message with an unknown tag decrypts, and the stream
loop answers it with exactly one sealed typed-error response. -/
theorem every_decrypted_message_answered_witness :
    handleStream tunnelVerify middlewareState testCollaborators "peerH"
        (Digest.sha256 [1, 2])
        (encryptMessage (ProtocolMessage.unknown "nope") (Digest.sha256 [1, 2]) 7)
        "fresh" 0 9 =
      some (encryptMessage
              (handleMessage tunnelVerify middlewareState testCollaborators
                "peerH" (ProtocolMessage.unknown "nope") "fresh" 0).1
              (Digest.sha256 [1, 2]) 9,
            (handleMessage tunnelVerify middlewareState testCollaborators
              "peerH" (ProtocolMessage.unknown "nope") "fresh" 0).2.1) ∧
    ((handleMessage tunnelVerify middlewareState testCollaborators "peerH"
        (ProtocolMessage.unknown "nope") "fresh" 0).1.success = true ∨
      (handleMessage tunnelVerify middlewareState testCollaborators "peerH"
        (ProtocolMessage.unknown "nope") "fresh" 0).1.error.isSome = true) :=
  every_decrypted_message_answered tunnelVerify middlewareState
    testCollaborators "peerH" (Digest.sha256 [1, 2])
    (encryptMessage (ProtocolMessage.unknown "nope") (Digest.sha256 [1, 2]) 7)
    (ProtocolMessage.unknown "nope") "fresh" 0 9 (by decide)

/-- Replacing a binding in the peer-indexed map keeps keys pairwise
distinct. -/
theorem distinctKeys_mapSet {α : Type} (m : List (String × α)) (k : String)
    (v : α) (h : distinctKeys m) : distinctKeys (mapSet m k v) := by
  unfold distinctKeys mapSet
  refine List.Pairwise.cons ?_ (h.sublist (List.filter_sublist _))
  intro b hb
  have h2 := (List.mem_filter.mp hb).2
  exact Ne.symm (of_decide_eq_true h2)

/-- Looking up the key just set returns exactly the new value. -/
theorem mapGet_mapSet_self {α : Type} (m : List (String × α)) (k : String)
    (v : α) : mapGet (mapSet m k v) k = some v := by
  unfold mapGet mapSet
  rw [List.find?_cons_of_pos _ (by simp)]
  rfl

/-- C8: at most one session per remote peer, last handshake wins.  On any
dispatched message the sessions map keeps at most one entry per peer
identifier; a successful re-authentication binds the peer to a record built
entirely from the new request (new wallet address, fresh session id, fresh
timestamp — nothing merged from the old record); the inbound connections map
(`_handleProtocol`) and the outbound one (`connectToPeer`) keep at most one
entry per peer as well, and an outbound re-handshake leaves the peer bound to
exactly the newly derived shared key. -/
theorem one_session_per_peer_last_wins
    (verify : String → WireSignature → String → Bool) (st : ServiceState)
    (env : Collaborators) (peerId : String) (msg : ProtocolMessage)
    (fresh : String) (now : Nat) (m : AuthMessage)
    (conns : List (String × Digest)) (sk : Digest)
    (hd : distinctKeys st.sessions) (hdc : distinctKeys conns) :
    distinctKeys (handleMessage verify st env peerId msg fresh now).2.1.sessions ∧
    (verify m.challenge m.signature m.walletAddress = true →
      st.type = NodeType.middleware →
      mapGet (handleAuth verify st peerId m fresh now).2.1.sessions peerId =
        some ⟨m.walletAddress, fresh, true, now⟩) ∧
    distinctKeys (handleProtocolConnections conns peerId sk) ∧
    distinctKeys (connectToPeerConnections conns peerId sk) ∧
    mapGet (connectToPeerConnections conns peerId sk) peerId = some sk := by
  refine ⟨?_, ?_, ?_, ?_, ?_⟩
  · cases msg with
    | auth m2 =>
      show distinctKeys (handleAuth verify st peerId m2 fresh now).2.1.sessions
      unfold handleAuth
      split
      · exact hd
      · split
        · exact hd
        · exact distinctKeys_mapSet _ _ _ hd
    | vaultDecrypt m2 =>
      show distinctKeys (handleVaultDecrypt st env peerId m2).2.1.sessions
      unfold handleVaultDecrypt
      (repeat' split) <;> exact hd
    | ssoLogin m2 =>
      show distinctKeys (handleSSOLogin st env peerId m2).2.1.sessions
      unfold handleSSOLogin
      (repeat' split) <;> exact hd
    | appToken m2 =>
      show distinctKeys (handleAppToken st env peerId m2).2.1.sessions
      unfold handleAppToken
      (repeat' split) <;> exact hd
    | unknown t => exact hd
  · intro hver hmw
    unfold handleAuth
    simp [hmw, hver, mapGet_mapSet_self]
  · unfold handleProtocolConnections
    split
    · exact hdc
    · exact distinctKeys_mapSet _ _ _ hdc
  · exact distinctKeys_mapSet _ _ _ hdc
  · exact mapGet_mapSet_self _ _ _

/-- C8 witness: a re-authentication and a re-handshake for a peer that
already has a session: the maps stay single-entry and hold exactly the new
record. -/
theorem one_session_per_peer_last_wins_witness :
    distinctKeys (handleMessage verifyAccept oneSessionState testCollaborators
      "peerA" (ProtocolMessage.auth replayAuthMessage) "new-sid" 5).2.1.sessions ∧
    (verifyAccept replayAuthMessage.challenge replayAuthMessage.signature
        replayAuthMessage.walletAddress = true →
      oneSessionState.type = NodeType.middleware →
      mapGet (handleAuth verifyAccept oneSessionState "peerA" replayAuthMessage
          "new-sid" 5).2.1.sessions "peerA" =
        some ⟨replayAuthMessage.walletAddress, "new-sid", true, 5⟩) ∧
    distinctKeys (handleProtocolConnections [("peerA", Digest.sha256 [0])]
      "peerA" (Digest.sha256 [9])) ∧
    distinctKeys (connectToPeerConnections [("peerA", Digest.sha256 [0])]
      "peerA" (Digest.sha256 [9])) ∧
    mapGet (connectToPeerConnections [("peerA", Digest.sha256 [0])]
      "peerA" (Digest.sha256 [9])) "peerA" = some (Digest.sha256 [9]) :=
  one_session_per_peer_last_wins verifyAccept oneSessionState
    testCollaborators "peerA" (ProtocolMessage.auth replayAuthMessage)
    "new-sid" 5 replayAuthMessage [("peerA", Digest.sha256 [0])]
    (Digest.sha256 [9])
    (by simp [distinctKeys, oneSessionState])
    (by simp [distinctKeys])

/-- C10: the session token is bound to the transport peer.  Whenever one of
the session-bound requests (`vault_decrypt`, `sso_login`, `app_token`)
succeeds, the session record looked up under the REQUESTING connection's
peer identifier exists and its `sessionId` equals the one the request
supplied — so a session id issued to a different peer, presented over this
connection, can never yield a success and is answered with an error
response. -/
theorem session_bound_to_transport_peer
    (verify : String → WireSignature → String → Bool) (st : ServiceState)
    (env : Collaborators) (peerId : String) (msg : ProtocolMessage)
    (fresh : String) (now : Nat)
    (hnotauth : ∀ m, msg ≠ ProtocolMessage.auth m)
    (hsucc : (handleMessage verify st env peerId msg fresh now).1.success = true) :
    ∃ s, mapGet st.sessions peerId = some s ∧
      requestSessionId msg = some s.sessionId := by
  cases msg with
  | auth m => exact absurd rfl (hnotauth m)
  | unknown t => simp [handleMessage, errResponse] at hsucc
  | vaultDecrypt m =>
    have hs2 : (handleVaultDecrypt st env peerId m).1.success = true := hsucc
    unfold handleVaultDecrypt at hs2
    split at hs2
    · simp [errResponse] at hs2
    · split at hs2
      · simp [errResponse] at hs2
      · next s heq =>
        split at hs2
        · simp [errResponse] at hs2
        · next hne =>
          exact ⟨s, heq, by simp [requestSessionId, not_not.mp hne]⟩
  | ssoLogin m =>
    have hs2 : (handleSSOLogin st env peerId m).1.success = true := hsucc
    unfold handleSSOLogin at hs2
    split at hs2
    · simp [errResponse] at hs2
    · split at hs2
      · simp [errResponse] at hs2
      · next s heq =>
        split at hs2
        · simp [errResponse] at hs2
        · next hne =>
          exact ⟨s, heq, by simp [requestSessionId, not_not.mp hne]⟩
  | appToken m =>
    have hs2 : (handleAppToken st env peerId m).1.success = true := hsucc
    unfold handleAppToken at hs2
    split at hs2
    · simp [errResponse] at hs2
    · split at hs2
      · simp [errResponse] at hs2
      · next s heq =>
        split at hs2
        · simp [errResponse] at hs2
        · next hne =>
          exact ⟨s, heq, by simp [requestSessionId, not_not.mp hne]⟩

/-- C10 witness: a successful `vault_decrypt` on a concrete state implies the
requesting peer's own session carries the supplied session id. -/
theorem session_bound_to_transport_peer_witness :
    ∃ s, mapGet oneSessionState.sessions "peerA" = some s ∧
      requestSessionId (ProtocolMessage.vaultDecrypt ⟨"sid-A", "cid"⟩) =
        some s.sessionId :=
  session_bound_to_transport_peer tunnelVerify oneSessionState
    testCollaborators "peerA" (ProtocolMessage.vaultDecrypt ⟨"sid-A", "cid"⟩)
    "fresh" 0 (fun m h => ProtocolMessage.noConfusion h) (by decide)

end SecureTunnel
